import Mathlib

/-
  Verification of the Elasticsearch hints gateway (src/main.py) against its
  natural-language specification.

  The service is a stateless HTTP façade: each handler reads request
  parameters, issues one or two backend search calls, and reshapes the
  backend JSON into a fixed response shape.  We embed each handler as a pure
  Lean function of its inputs and of an explicit backend outcome (the
  backend itself is external to the repository).  Floating-point relevance
  scores are modelled as rationals; Python `int()` truncation is modelled
  exactly (truncation toward zero).
-/

/-! ## Highlight configuration (src/main.py lines 121-128 and 360-367) -/

/-- The per-field highlight block a handler attaches to its backend search
body: the set of highlighted fields and the fixed wrap marker tags. -/
structure HighlightConfig where
  fields : List String
  preTags : List String
  postTags : List String
deriving DecidableEq, Repr

/-- The highlight block built by `search_documents` (lines 121-128):
fields `prompt` and `query`, wrapped in `<mark>` tags. -/
def searchHighlightConfig : HighlightConfig :=
  { fields := ["prompt", "query"]
    preTags := ["<mark>"]
    postTags := ["</mark>"] }

/-- The highlight block built by `search_by_prompt_or_query`
(lines 360-367): fields `prompt` and `query`, wrapped in `<em>` tags. -/
def pqHighlightConfig : HighlightConfig :=
  { fields := ["prompt", "query"]
    preTags := ["<em>"]
    postTags := ["</em>"] }

/-! ## Health endpoint (src/main.py lines 63-87) -/

/-- The `HealthResponse` pydantic model (lines 56-60).  The two cluster
fields default to `None`. -/
structure HealthResponse where
  status : String
  elasticsearch_connected : Bool
  cluster_name : Option String := none
  cluster_health : Option String := none
deriving DecidableEq, Repr

/-- The observable state of the external backend as seen by
`health_check`: the client may be unconfigured (`es` is `None`, line 66),
`es.info()` may raise (line 73), `es.cluster.health()` may raise after
`es.info()` already returned cluster data (line 74), or both calls may
succeed, yielding the optional `cluster_name` and `status` values that
`.get` extracts (lines 79-80). -/
inductive EsState where
  | unconfigured
  | infoRaises
  | healthRaises (clusterName : Option String)
  | up (clusterName : Option String) (clusterHealth : Option String)
deriving DecidableEq, Repr

/-- The `health_check` handler (lines 63-87): if the client is missing it
returns an unhealthy response; otherwise it tries both backend calls,
returning a healthy response with cluster data on success, and catching any
exception into the same unhealthy response with no partial data. -/
def health_check : EsState → HealthResponse
  | .unconfigured => { status := "unhealthy", elasticsearch_connected := false }
  | .infoRaises => { status := "unhealthy", elasticsearch_connected := false }
  | .healthRaises _ => { status := "unhealthy", elasticsearch_connected := false }
  | .up n h =>
      { status := "healthy"
        elasticsearch_connected := true
        cluster_name := n
        cluster_health := h }

/-- C3: the claim that `/search_by_prompt_or_query` sends the same per-field
highlight configuration as `/search` is false: the fields agree but the wrap
marker tags differ (`<mark>` versus `<em>`). -/
theorem searchHighlight_ne_pqHighlight : searchHighlightConfig ≠ pqHighlightConfig := by
  decide

/-- C3 (amended): the two handlers highlight the same fields (`prompt` and
`query`), but with different fixed wrap markers: `/search` wraps matches in
`<mark>`...`</mark>` while `/search_by_prompt_or_query` wraps them in
`<em>`...`</em>`. -/
theorem highlight_same_fields_different_tags :
    searchHighlightConfig.fields = pqHighlightConfig.fields ∧
    searchHighlightConfig.preTags = ["<mark>"] ∧
    searchHighlightConfig.postTags = ["</mark>"] ∧
    pqHighlightConfig.preTags = ["<em>"] ∧
    pqHighlightConfig.postTags = ["</em>"] ∧
    searchHighlightConfig.preTags ≠ pqHighlightConfig.preTags := by
  decide

/-- C7: for every backend state, `/health` returns a well-formed
`HealthResponse` (never an error): on an unconfigured client, a raising
`info()` call, or a raising `cluster.health()` call it returns status
`unhealthy` with `elasticsearch_connected = false` and no partial cluster
data, and on success it returns status `healthy` with
`elasticsearch_connected = true` and the cluster name and health. -/
theorem health_check_never_errors :
    ∀ s : EsState,
      ((health_check s).status = "healthy" ∨ (health_check s).status = "unhealthy") ∧
      (∀ n, (s = .unconfigured ∨ s = .infoRaises ∨ s = .healthRaises n) →
        health_check s =
          { status := "unhealthy", elasticsearch_connected := false }) ∧
      (∀ n h, s = .up n h →
        health_check s =
          { status := "healthy", elasticsearch_connected := true
            cluster_name := n, cluster_health := h }) := by
  intro s
  refine ⟨?_, ?_, ?_⟩
  · cases s <;> simp [health_check]
  · rintro n (rfl | rfl | rfl) <;> rfl
  · rintro n h rfl
    rfl

/-- C7 witness: a `cluster.health()` failure after a successful `info()`
degrades to the unhealthy response with no partial data, and a fully
reachable backend yields the healthy response with its cluster data. -/
theorem health_check_never_errors_witness :
    health_check (.healthRaises (some "docker-cluster")) =
      { status := "unhealthy", elasticsearch_connected := false } ∧
    health_check (.up (some "docker-cluster") (some "green")) =
      { status := "healthy", elasticsearch_connected := true
        cluster_name := some "docker-cluster", cluster_health := some "green" } :=
  ⟨(health_check_never_errors (.healthRaises (some "docker-cluster"))).2.1
      (some "docker-cluster") (Or.inr (Or.inr rfl)),
   (health_check_never_errors (.up (some "docker-cluster") (some "green"))).2.2
      (some "docker-cluster") (some "green") rfl⟩

/-! ## Generic handler outcomes -/

/-- The outcome of one backend call (the backend itself is external):
either the call raises or it returns a response value. -/
inductive BackendOutcome (α : Type) where
  | raises
  | ok (resp : α)
deriving DecidableEq, Repr

/-- The HTTP result of a handler body: either a successful JSON payload or
an `HTTPException` with the given status code. -/
inductive HandlerResult (α : Type) where
  | ok (v : α)
  | httpError (code : ℕ)
deriving DecidableEq, Repr

/-! ## /search_by_prompt_or_query (src/main.py lines 321-400) -/

/-- Python `int()` on a rational value: truncation toward zero. -/
def pyInt (q : ℚ) : ℤ := if q < 0 then -⌊-q⌋ else ⌊q⌋

/-- One raw backend hit as consumed by `search_by_prompt_or_query`
(lines 375-380): the handler reads `_source` with default `{}`,
`prompt`/`query` from the source with default `''`, `highlight` with
default `{}`, and `_score` with default `0`. -/
structure PqEsHit where
  source_prompt : Option String
  source_query : Option String
  score : Option ℚ
  highlight : List (String × List String)
deriving DecidableEq, Repr

/-- One processed hit dict of `search_by_prompt_or_query` (lines 383-389);
its keys coincide with the fields of the `SearchResult` model. -/
structure PqHit where
  prompt : String
  query : String
  score : ℚ
  match_percentage : ℤ
  highlight : List (String × List String)
deriving DecidableEq, Repr

/-- The per-hit processing of `search_by_prompt_or_query` (lines 375-389):
extract source fields and highlight with defaults, and compute
`match_percentage = min(100, int((score / max_score) * 100)) if max_score > 0
else 0` (line 381). -/
def processPqHit (maxScore : ℚ) (h : PqEsHit) : PqHit :=
  let score := h.score.getD 0
  { prompt := h.source_prompt.getD ""
    query := h.source_query.getD ""
    score := score
    match_percentage :=
      if 0 < maxScore then min 100 (pyInt (score / maxScore * 100)) else 0
    highlight := h.highlight }

/-- The hit-list processing loop of `search_by_prompt_or_query`
(lines 374-389). -/
def processPqHits (maxScore : ℚ) (hits : List PqEsHit) : List PqHit :=
  hits.map (processPqHit maxScore)

/-- Extraction of `max_score` from the dedicated top-1 query response
(line 347): the top hit's `_score` when the hit list is non-empty,
otherwise `1`. -/
def extractMaxScore : List ℚ → ℚ
  | [] => 1
  | s :: _ => s

/-- The backend data consumed by `search_by_prompt_or_query` on the success
path: the scores of the `max_score_body` query's hits (line 346) and the
main query's hits, total and took (lines 371, 392-394). -/
structure PqBackendData where
  maxScoreHits : List ℚ
  hits : List PqEsHit
  totalValue : ℤ
  took : ℤ
deriving DecidableEq, Repr

/-- The response dict returned by `search_by_prompt_or_query`
(lines 391-396); `suggestions` is the literal empty list. -/
structure PqResponse where
  total : ℤ
  hits : List PqHit
  took : ℤ
  suggestions : List String
deriving DecidableEq, Repr

/-- The `search_by_prompt_or_query` handler (lines 321-400).  Its `q` and
`size` parameters declare no FastAPI validation constraints (line 322), so
every string and integer reaches the body.  The body returns 503 when the
client is unconfigured or `es.ping()` fails (lines 327-328), 500 when a
backend call raises (lines 398-400), and otherwise the processed response.
The first component records whether a backend search call was issued. -/
def search_by_prompt_or_query (q : String) (size : ℤ)
    (esConfigured pingOk : Bool) (outcome : BackendOutcome PqBackendData) :
    Bool × HandlerResult PqResponse :=
  if ¬(esConfigured && pingOk) then (false, .httpError 503)
  else
    match outcome with
    | .raises => (true, .httpError 500)
    | .ok d =>
        (true, .ok
          { total := d.totalValue
            hits := processPqHits (extractMaxScore d.maxScoreHits) d.hits
            took := d.took
            suggestions := [] })

/-- The spec's formula for the match percentage, stated for comparison with
the code: `round(min(100, 100 * hitScore / topScore))`, with a `topScore`
of zero giving zero. -/
def specMatchPercentage (score topScore : ℚ) : ℤ :=
  if topScore = 0 then 0 else round (min 100 (100 * score / topScore))

/-- Python truncation of a non-negative rational is its floor, hence
non-negative. -/
theorem pyInt_nonneg {q : ℚ} (h : 0 ≤ q) : 0 ≤ pyInt q := by
  unfold pyInt
  rw [if_neg (not_lt.mpr h)]
  exact Int.floor_nonneg.mpr h

/-- C2 counterexample: the claim that the match percentage equals
`round(min(100, 100 * hitScore / topScore))` fails on a backend returning a
hit scored 2 with top score 3: the handler computes 66 (Python `int()`
truncation), while the claimed formula gives `round(200/3) = 67`. -/
theorem pq_match_percentage_not_round :
    (search_by_prompt_or_query "red" 10 true true (.ok
        { maxScoreHits := [3]
          hits := [{ source_prompt := some "red", source_query := some "shirt"
                     score := some 2, highlight := [] }]
          totalValue := 1, took := 4 })).2 =
      .ok { total := 1, hits := [⟨"red", "shirt", 2, 66, []⟩]
            took := 4, suggestions := [] } ∧
    specMatchPercentage 2 3 = 67 ∧ (66 : ℤ) ≠ 67 := by
  refine ⟨?_, ?_, by decide⟩
  · norm_num [search_by_prompt_or_query, processPqHits, processPqHit, extractMaxScore, pyInt]
  · unfold specMatchPercentage
    rw [if_neg (by norm_num)]
    have h : min (100 : ℚ) (100 * 2 / 3) = 200 / 3 := by
      rw [min_eq_right] <;> norm_num
    rw [h, round_eq]
    norm_num

/-- C2 (amended): for every hit returned by `/search_by_prompt_or_query`,
its match percentage equals `min(100, int(100 * hitScore / topScore))`
where `int` is Python truncation toward zero (not rounding), `topScore` is
the score of the dedicated top-1 query's first hit (1 when that query
returns no hits), and a non-positive `topScore` gives percentage 0 for all
hits; in particular two hits scored 8.0 and 4.0 get percentages 100
and 50. -/
theorem pq_match_percentage_truncates :
    ∀ (qs : String) (size : ℤ) (d : PqBackendData) (r : PqResponse),
      (search_by_prompt_or_query qs size true true (.ok d)).2 = .ok r →
      ∀ p ∈ r.hits,
        p.match_percentage =
          (if 0 < extractMaxScore d.maxScoreHits then
            min 100 (pyInt (p.score / extractMaxScore d.maxScoreHits * 100))
          else 0) := by
  intro qs size d r hr p hp
  simp only [search_by_prompt_or_query, Bool.and_self, Bool.not_true, Bool.false_eq_true,
    not_false_eq_true, not_true_eq_false, if_false, HandlerResult.ok.injEq] at hr
  · subst hr
    simp only [processPqHits, List.mem_map] at hp
    obtain ⟨h, _, rfl⟩ := hp
    simp only [processPqHit]

/-- C2 witness: the spec's own scenario — a backend returning hits scored
8.0 and 4.0 (top score 8) — run through the amended formula: the handler
returns percentages 100 and 50, and each equals the truncated formula. -/
theorem pq_match_percentage_truncates_witness :
    ((search_by_prompt_or_query "red shirt" 10 true true (.ok
        { maxScoreHits := [8]
          hits := [{ source_prompt := some "red shirt casual", source_query := some "red shirt"
                     score := some 8, highlight := [] },
                   { source_prompt := some "maroon shirt", source_query := some "dark red shirt"
                     score := some 4, highlight := [] }]
          totalValue := 2, took := 5 })).2 =
      .ok { total := 2
            hits := [⟨"red shirt casual", "red shirt", 8, 100, []⟩,
                     ⟨"maroon shirt", "dark red shirt", 4, 50, []⟩]
            took := 5, suggestions := [] }) ∧
    (⟨"red shirt casual", "red shirt", 8, 100, []⟩ : PqHit).match_percentage =
      (if 0 < extractMaxScore [8] then
        min 100 (pyInt ((⟨"red shirt casual", "red shirt", 8, 100, []⟩ : PqHit).score /
          extractMaxScore [8] * 100))
      else 0) ∧
    (⟨"maroon shirt", "dark red shirt", 4, 50, []⟩ : PqHit).match_percentage =
      (if 0 < extractMaxScore [8] then
        min 100 (pyInt ((⟨"maroon shirt", "dark red shirt", 4, 50, []⟩ : PqHit).score /
          extractMaxScore [8] * 100))
      else 0) := by
  have hok : (search_by_prompt_or_query "red shirt" 10 true true (.ok
      { maxScoreHits := [8]
        hits := [{ source_prompt := some "red shirt casual", source_query := some "red shirt"
                   score := some 8, highlight := [] },
                 { source_prompt := some "maroon shirt", source_query := some "dark red shirt"
                   score := some 4, highlight := [] }]
        totalValue := 2, took := 5 })).2 =
      .ok { total := 2
            hits := [⟨"red shirt casual", "red shirt", 8, 100, []⟩,
                     ⟨"maroon shirt", "dark red shirt", 4, 50, []⟩]
            took := 5, suggestions := [] } := by
    norm_num [search_by_prompt_or_query, processPqHits, processPqHit, extractMaxScore, pyInt]
  refine ⟨hok, ?_, ?_⟩
  · exact pq_match_percentage_truncates "red shirt" 10 _ _ hok
      ⟨"red shirt casual", "red shirt", 8, 100, []⟩ (by simp)
  · exact pq_match_percentage_truncates "red shirt" 10 _ _ hok
      ⟨"maroon shirt", "dark red shirt", 4, 50, []⟩ (by simp)

/-- C4: for every backend response whose hit scores are non-negative, every
match percentage computed by `/search_by_prompt_or_query` lies in [0,100],
and when the top score is 0 every hit's percentage is 0; the guarded
conditional (`if max_score > 0`) means no division by zero is performed. -/
theorem pq_match_percentage_in_range :
    ∀ (qs : String) (size : ℤ) (d : PqBackendData) (r : PqResponse),
      (∀ h ∈ d.hits, 0 ≤ h.score.getD 0) →
      (search_by_prompt_or_query qs size true true (.ok d)).2 = .ok r →
      ∀ p ∈ r.hits,
        (0 ≤ p.match_percentage ∧ p.match_percentage ≤ 100) ∧
        (extractMaxScore d.maxScoreHits = 0 → p.match_percentage = 0) := by
  intro qs size d r hscores hr p hp
  simp only [search_by_prompt_or_query, Bool.and_self, Bool.not_true, Bool.false_eq_true,
    not_false_eq_true, not_true_eq_false, if_false, HandlerResult.ok.injEq] at hr
  subst hr
  simp only [processPqHits, List.mem_map] at hp
  obtain ⟨h, hmem, rfl⟩ := hp
  by_cases hM : 0 < extractMaxScore d.maxScoreHits
  · refine ⟨?_, fun h0 => absurd (h0 ▸ hM) (lt_irrefl 0)⟩
    simp only [processPqHit, if_pos hM]
    constructor
    · refine le_min (by norm_num) (pyInt_nonneg ?_)
      have hs := hscores h hmem
      positivity
    · exact min_le_left _ _
  · simp only [processPqHit, if_neg hM]
    norm_num

/-- C4 witness: a backend whose top-1 query returns score 0 and whose main
query returns hits scored 0 and 0 yields percentages that are 0 (hence in
[0,100]). -/
theorem pq_match_percentage_in_range_witness :
    ((0 : ℤ) ≤ (⟨"a", "b", 0, 0, []⟩ : PqHit).match_percentage ∧
      (⟨"a", "b", 0, 0, []⟩ : PqHit).match_percentage ≤ 100) ∧
    (extractMaxScore [0] = 0 → (⟨"a", "b", 0, 0, []⟩ : PqHit).match_percentage = 0) := by
  have hok : (search_by_prompt_or_query "x" 10 true true (.ok
      { maxScoreHits := [0]
        hits := [{ source_prompt := some "a", source_query := some "b"
                   score := some 0, highlight := [] }]
        totalValue := 1, took := 2 })).2 =
      .ok { total := 1, hits := [⟨"a", "b", 0, 0, []⟩], took := 2, suggestions := [] } := by
    norm_num [search_by_prompt_or_query, processPqHits, processPqHit, extractMaxScore, pyInt]
  exact pq_match_percentage_in_range "x" 10 _ _
    (by intro h hh; simp at hh; subst hh; norm_num) hok
    ⟨"a", "b", 0, 0, []⟩ (by simp)

/-! ## JSON-like values and the SearchResult model (src/main.py lines 43-54) -/

/-- A JSON-like value, enough to model the dicts the handlers build and the
types the pydantic models accept. -/
inductive Val where
  | vstr (s : String)
  | vnum (q : ℚ)
  | vint (n : ℤ)
  | vnone
  | vdict (entries : List (String × Val))
  | vlist (items : List Val)

/-- Key lookup in a dict represented as an association list. -/
def vlookup (key : String) : List (String × Val) → Option Val
  | [] => none
  | (k, v) :: rest => if k = key then some v else vlookup key rest

/-- A required `str` field: the key must be present with a string value. -/
def isRequiredStr : Option Val → Bool
  | some (.vstr _) => true
  | _ => false

/-- An `Optional[float]` field: missing, `None`, or numeric. -/
def isOptionalFloat : Option Val → Bool
  | none => true
  | some .vnone => true
  | some (.vnum _) => true
  | some (.vint _) => true
  | _ => false

/-- An `Optional[int]` field: missing, `None`, or an integer. -/
def isOptionalInt : Option Val → Bool
  | none => true
  | some .vnone => true
  | some (.vint _) => true
  | _ => false

/-- An `Optional[Dict[str, Any]]` field: missing, `None`, or a dict. -/
def isOptionalDict : Option Val → Bool
  | none => true
  | some .vnone => true
  | some (.vdict _) => true
  | _ => false

/-- Pydantic validation of one dict against the `SearchResult` model
(lines 43-48): `prompt` and `query` are required `str` fields with no
default, `score`/`match_percentage`/`highlight` are optional with default
`None`; extra keys are ignored.  Validation of a dict missing a required
field raises a `ValidationError`. -/
def validateSearchResult (d : List (String × Val)) : Bool :=
  isRequiredStr (vlookup "prompt" d) &&
  (isRequiredStr (vlookup "query" d) &&
    (isOptionalFloat (vlookup "score" d) &&
      (isOptionalInt (vlookup "match_percentage" d) &&
        isOptionalDict (vlookup "highlight" d))))

/-! ## /search (src/main.py lines 90-192) -/

/-- One raw backend hit as consumed by `search_documents` (lines 160-171):
`_id`, `_score`, `_source`, and the optional `highlight` key. -/
structure EsHit where
  id : String
  score : ℚ
  source : List (String × Val)
  highlight : Option (List (String × Val))

/-- The per-hit dict built by `search_documents` (lines 161-171): keys
`id`, `score` and `source`, plus `highlight` only when the backend hit
carries one. -/
def buildHitDoc (h : EsHit) : List (String × Val) :=
  [("id", .vstr h.id), ("score", .vnum h.score), ("source", .vdict h.source)] ++
    (match h.highlight with
     | some hl => [("highlight", .vdict hl)]
     | none => [])

/-- Append a string to the accumulator unless it is already present — the
`if x not in suggestions: suggestions.append(x)` idiom (lines 180-181,
265-268). -/
def addIfAbsent (acc : List String) (x : String) : List String :=
  if x ∈ acc then acc else acc ++ [x]

/-- First-seen-order deduplication of a list, as performed by the
suggestion loops. -/
def dedupFirstSeen (l : List String) : List String :=
  l.foldl addIfAbsent []

/-- The `suggest` block of a `/search` backend response: for each of the
two term suggesters, optionally a list of suggestion entries, each entry
being the `text` values of its options (lines 176-181). -/
structure SuggestBlock where
  prompt_suggest : Option (List (List String))
  query_suggest : Option (List (List String))

/-- All option texts of both suggesters, in iteration order:
`prompt_suggest` entries first, then `query_suggest` entries (line 176). -/
def suggestTexts (sb : SuggestBlock) : List String :=
  (sb.prompt_suggest.getD []).flatten ++ (sb.query_suggest.getD []).flatten

/-- The suggestion-processing loop of `search_documents` (lines 174-181):
empty unless suggestions were requested and the response has a `suggest`
block; otherwise the deduplicated option texts in first-seen order. -/
def searchSuggestions (suggest : Bool) (sb : Option SuggestBlock) : List String :=
  match suggest, sb with
  | true, some b => dedupFirstSeen (suggestTexts b)
  | _, _ => []

/-- A `/search` backend success response: `hits.total.value`, the hit list,
`took`, and the optional `suggest` block (lines 156, 184-186). -/
structure EsSearchResponse where
  totalValue : ℤ
  hits : List EsHit
  took : ℤ
  suggest : Option SuggestBlock

/-- The payload `search_documents` hands to the `SearchResponse`
constructor (lines 183-188). -/
structure SearchResponseVal where
  total : ℤ
  hits : List (List (String × Val))
  took : ℤ
  suggestions : List String

/-- The `search_documents` handler body (lines 106-192): 503 when the
client is unconfigured, 500 when the backend call raises, and otherwise the
mapped hit dicts and suggestions.  Constructing the `SearchResponse`
response model validates every hit dict against `SearchResult`; a
`ValidationError` is caught by the blanket `except` (lines 190-192) and
surfaces as a 500.  The first component records whether the backend search
call was issued. -/
def search_documents (esConfigured suggest : Bool)
    (outcome : BackendOutcome EsSearchResponse) :
    Bool × HandlerResult SearchResponseVal :=
  if !esConfigured then (false, .httpError 503)
  else
    match outcome with
    | .raises => (true, .httpError 500)
    | .ok resp =>
        let docs := resp.hits.map buildHitDoc
        if docs.all validateSearchResult then
          (true, .ok
            { total := resp.totalValue
              hits := docs
              took := resp.took
              suggestions := (searchSuggestions suggest resp.suggest).take 10 })
        else (true, .httpError 500)

/-- The FastAPI validation constraints declared on `/search`'s query
parameters (lines 92-93): `q` has `min_length=1` and `size` has `ge=1`,
`le=100`; FastAPI rejects a request violating them with a 422 before the
handler body runs. -/
def searchParamsValid (q : String) (size : ℤ) : Bool :=
  decide (1 ≤ q.length) && (decide (1 ≤ size) && decide (size ≤ 100))

/-- The FastAPI validation constraints declared on
`/search_by_prompt_or_query`'s parameters (line 322): none — `q : str` and
`size : int = 10` carry no `Query` constraints, so every string and every
integer is accepted. -/
def pqParamsValid (_q : String) (_size : ℤ) : Bool :=
  true

/-- A routed request: either rejected by parameter validation (HTTP 422)
or handled by the endpoint body. -/
inductive RouteResult (α : Type) where
  | rejected422
  | handled (r : HandlerResult α)

/-- The `/search` route: parameter validation happens at the FastAPI
boundary; only a valid request reaches `search_documents`. -/
def searchRoute (q : String) (size : ℤ) (suggest : Bool) (esConfigured : Bool)
    (outcome : BackendOutcome EsSearchResponse) :
    Bool × RouteResult SearchResponseVal :=
  if searchParamsValid q size then
    let res := search_documents esConfigured suggest outcome
    (res.1, .handled res.2)
  else (false, .rejected422)

/-! ## /autocomplete (src/main.py lines 195-288) -/

/-- The outcome of the tier-1 completion-suggester call (lines 250-256):
either it raises (e.g. the completion field is not configured) or it
returns, per suggestion entry, the option texts. -/
inductive Tier1Result where
  | raised
  | ok (entries : List (List String))

/-- The suggestion texts extracted from the tier-1 response (lines
253-256, plain appends with no deduplication). -/
def tier1Texts : Tier1Result → List String
  | .raised => []
  | .ok entries => entries.flatten

/-- One hit of the tier-2 fallback query: its `_source` may carry `prompt`
and `query` fields (lines 263-268). -/
structure FallbackHit where
  prompt : Option String
  query : Option String

/-- Add an optional source field to the accumulator if present and not
already seen. -/
def addOptField (acc : List String) : Option String → List String
  | some s => addIfAbsent acc s
  | none => acc

/-- Process one fallback hit (lines 264-268): add its `prompt`, then its
`query`, each only when present and not already in the list. -/
def addFallbackHit (acc : List String) (h : FallbackHit) : List String :=
  addOptField (addOptField acc h.prompt) h.query

/-- The suggestion list the tier-2 fallback loop builds (lines 261-268). -/
def fallbackSuggestions (hits : List FallbackHit) : List String :=
  hits.foldl addFallbackHit []

/-- The `autocomplete` handler body (lines 204-288): 503 when the client
is unconfigured; try the completion suggester, fall back to the prefix
query when it raises (inner `except`, lines 272-284) or when it yields no
suggestions (line 258); cap the returned list at the requested size.  A
raising fallback query surfaces as a 500 through the outer `except`
(lines 286-288). -/
def autocomplete (size : ℕ) (esConfigured : Bool) (t1 : Tier1Result)
    (t2 : BackendOutcome (List FallbackHit)) : HandlerResult (List String) :=
  if !esConfigured then .httpError 503
  else
    match t1 with
    | .raised =>
        match t2 with
        | .raises => .httpError 500
        | .ok hits => .ok ((fallbackSuggestions hits).take size)
    | .ok entries =>
        let s := entries.flatten
        if s.isEmpty then
          match t2 with
          | .raises => .httpError 500
          | .ok hits => .ok ((fallbackSuggestions hits).take size)
        else .ok (s.take size)

/-- Conditional append preserves distinctness. -/
theorem addIfAbsent_nodup {acc : List String} (x : String) (h : acc.Nodup) :
    (addIfAbsent acc x).Nodup := by
  unfold addIfAbsent
  split
  · exact h
  · next hx =>
    rw [List.nodup_append]
    refine ⟨h, List.nodup_singleton x, ?_⟩
    intro a ha hax
    rw [List.mem_singleton] at hax
    exact hx (hax ▸ ha)

/-- Folding conditional appends over any list preserves distinctness. -/
theorem foldl_addIfAbsent_nodup :
    ∀ (l : List String) (acc : List String), acc.Nodup → (l.foldl addIfAbsent acc).Nodup
  | [], _, h => h
  | x :: xs, acc, h => foldl_addIfAbsent_nodup xs (addIfAbsent acc x) (addIfAbsent_nodup x h)

/-- First-seen deduplication yields a list with no duplicates. -/
theorem dedupFirstSeen_nodup (l : List String) : (dedupFirstSeen l).Nodup :=
  foldl_addIfAbsent_nodup l [] List.nodup_nil

/-- Adding an optional source field preserves distinctness. -/
theorem addOptField_nodup {acc : List String} (o : Option String) (h : acc.Nodup) :
    (addOptField acc o).Nodup := by
  cases o with
  | none => exact h
  | some s => exact addIfAbsent_nodup s h

/-- Processing one fallback hit preserves distinctness. -/
theorem addFallbackHit_nodup {acc : List String} (fh : FallbackHit) (h : acc.Nodup) :
    (addFallbackHit acc fh).Nodup :=
  addOptField_nodup fh.query (addOptField_nodup fh.prompt h)

/-- Folding fallback hits over any list preserves distinctness. -/
theorem foldl_addFallbackHit_nodup :
    ∀ (l : List FallbackHit) (acc : List String),
      acc.Nodup → (l.foldl addFallbackHit acc).Nodup
  | [], _, h => h
  | fh :: rest, acc, h =>
      foldl_addFallbackHit_nodup rest (addFallbackHit acc fh) (addFallbackHit_nodup fh h)

/-- The tier-2 fallback suggestion list has no duplicates. -/
theorem fallbackSuggestions_nodup (hits : List FallbackHit) :
    (fallbackSuggestions hits).Nodup :=
  foldl_addFallbackHit_nodup hits [] List.nodup_nil

/-- The `/search` suggestion list has no duplicates before truncation. -/
theorem searchSuggestions_nodup (s : Bool) (sb : Option SuggestBlock) :
    (searchSuggestions s sb).Nodup := by
  unfold searchSuggestions
  split
  · exact dedupFirstSeen_nodup _
  · exact List.nodup_nil

/-- C5: whenever the tier-1 completion suggester raised or yielded zero
suggestions, the autocomplete handler answers from the tier-2 prefix-match
fallback query instead of propagating an error, and the list it returns is
exactly the deduplicated fallback extraction, has no duplicate strings, and
has length at most the requested size. -/
theorem autocomplete_fallback_dedup_capped :
    ∀ (size : ℕ) (t1 : Tier1Result) (hits : List FallbackHit),
      tier1Texts t1 = [] →
      autocomplete size true t1 (.ok hits) = .ok ((fallbackSuggestions hits).take size) ∧
      ((fallbackSuggestions hits).take size).Nodup ∧
      ((fallbackSuggestions hits).take size).length ≤ size := by
  intro size t1 hits ht
  refine ⟨?_, (fallbackSuggestions_nodup hits).sublist (List.take_sublist _ _), ?_⟩
  · cases t1 with
    | raised => rfl
    | ok entries =>
        simp only [tier1Texts] at ht
        simp [autocomplete, ht]
  · rw [List.length_take]
    exact min_le_left _ _

/-- C5 witness: with the completion suggester raising, two fallback hits
whose fields overlap produce the deduplicated capped list. -/
theorem autocomplete_fallback_dedup_capped_witness :
    tier1Texts .raised = [] ∧
    autocomplete 2 true .raised (.ok
        [{ prompt := some "red shirt", query := some "red shirt" },
         { prompt := some "red shirt", query := some "blue tee" }]) =
      .ok ((fallbackSuggestions
        [{ prompt := some "red shirt", query := some "red shirt" },
         { prompt := some "red shirt", query := some "blue tee" }]).take 2) ∧
    (fallbackSuggestions
        [{ prompt := some "red shirt", query := some "red shirt" },
         { prompt := some "red shirt", query := some "blue tee" }]).take 2 =
      ["red shirt", "blue tee"] ∧
    (["red shirt", "blue tee"] : List String).Nodup ∧
    (["red shirt", "blue tee"] : List String).length ≤ 2 := by
  have h := autocomplete_fallback_dedup_capped 2 .raised
    [{ prompt := some "red shirt", query := some "red shirt" },
     { prompt := some "red shirt", query := some "blue tee" }] rfl
  have hval : (fallbackSuggestions
      [{ prompt := some "red shirt", query := some "red shirt" },
       { prompt := some "red shirt", query := some "blue tee" }]).take 2 =
      ["red shirt", "blue tee"] := by
    simp [fallbackSuggestions, addFallbackHit, addOptField, addIfAbsent]
  exact ⟨rfl, h.1, hval, hval ▸ h.2.1, hval ▸ h.2.2⟩

/-- C6: whenever `/search` returns a success response, its suggestions list
is the flattened option texts of both term suggesters, deduplicated in
first-seen order and truncated to 10; in particular it has no duplicate
strings and never exceeds length 10. -/
theorem search_suggestions_dedup_capped :
    ∀ (suggest : Bool) (resp : EsSearchResponse) (r : SearchResponseVal),
      (search_documents true suggest (.ok resp)).2 = .ok r →
      r.suggestions = (searchSuggestions suggest resp.suggest).take 10 ∧
      (∀ b, suggest = true → resp.suggest = some b →
        r.suggestions = (dedupFirstSeen (suggestTexts b)).take 10) ∧
      r.suggestions.Nodup ∧ r.suggestions.length ≤ 10 := by
  intro suggest resp r hr
  by_cases hv : (resp.hits.map buildHitDoc).all validateSearchResult
  · simp only [search_documents, Bool.not_true, Bool.false_eq_true, if_false, hv, if_true,
      HandlerResult.ok.injEq] at hr
    subst hr
    refine ⟨rfl, ?_, ?_, ?_⟩
    · intro b hs hb
      subst hs
      simp [searchSuggestions, hb]
    · exact (searchSuggestions_nodup suggest resp.suggest).sublist (List.take_sublist _ _)
    · rw [List.length_take]
      exact min_le_left _ _
  · simp [search_documents, hv] at hr

/-- C6 witness: a backend response with empty hits and overlapping option
texts across both suggesters yields the deduplicated first-seen list,
truncated to 10. -/
theorem search_suggestions_dedup_capped_witness :
    (["shirt", "shirts", "tshirt"] : List String) =
      (dedupFirstSeen (suggestTexts
        { prompt_suggest := some [["shirt", "shirts", "shirt"]]
          query_suggest := some [["shirt", "tshirt"]] })).take 10 ∧
    (["shirt", "shirts", "tshirt"] : List String).Nodup ∧
    (["shirt", "shirts", "tshirt"] : List String).length ≤ 10 := by
  have hok : (search_documents true true (.ok
      { totalValue := 0, hits := [], took := 7
        suggest := some
          { prompt_suggest := some [["shirt", "shirts", "shirt"]]
            query_suggest := some [["shirt", "tshirt"]] } })).2 =
      .ok { total := 0, hits := [], took := 7
            suggestions := ["shirt", "shirts", "tshirt"] } := by
    simp [search_documents, searchSuggestions, suggestTexts, dedupFirstSeen, addIfAbsent]
  have h := search_suggestions_dedup_capped true _ _ hok
  exact ⟨h.2.1 _ rfl rfl, h.2.2.1, h.2.2.2⟩

/-- C1: the claim fails on the code.  The hit dict `search_documents`
builds for every backend hit (keys `id`, `score`, `source`, and
`highlight` when present — lines 161-171) does not validate against the
declared `SearchResult` response model, whose required fields are `prompt`
and `query` (lines 43-48).  Consequently, for every successful backend
response with at least one hit, constructing the `SearchResponse` raises a
`ValidationError` and the handler returns HTTP 500 instead of a well-formed
`SearchResponse`. -/
theorem search_hit_docs_fail_declared_model :
    ∀ (suggest : Bool) (total took : ℤ) (hit : EsHit) (rest : List EsHit)
      (sb : Option SuggestBlock),
      validateSearchResult (buildHitDoc hit) = false ∧
      (search_documents true suggest
        (.ok { totalValue := total, hits := hit :: rest, took := took, suggest := sb })).2 =
        .httpError 500 := by
  intro suggest total took hit rest sb
  have hv : validateSearchResult (buildHitDoc hit) = false := by
    cases hh : hit.highlight <;>
      simp [buildHitDoc, vlookup, validateSearchResult, isRequiredStr, hh]
  refine ⟨hv, ?_⟩
  simp [search_documents, hv]

/-- C8: an empty backend hit set for a valid query yields the success
response `{total: 0, hits: [], took: n, suggestions: []}`, not an error;
but the second half of the claim — that only a backend error or an
unreachable backend produces a service-level failure — fails: a successful
backend response carrying a hit also produces a 500, because the hit dict
does not validate against the declared `SearchResult` model. -/
theorem search_empty_hits_is_success :
    ∀ (took : ℤ),
      (search_documents true true (.ok
        { totalValue := 0, hits := [], took := took
          suggest := some { prompt_suggest := some [], query_suggest := some [] } })).2 =
        .ok { total := 0, hits := [], took := took, suggestions := [] } ∧
      (search_documents true true (.ok
        { totalValue := 1
          hits := [{ id := "1", score := 1
                     source := [("prompt", .vstr "red shirt"), ("query", .vstr "shirt")]
                     highlight := none }]
          took := took
          suggest := some { prompt_suggest := some [], query_suggest := some [] } })).2 =
        .httpError 500 := by
  intro took
  constructor
  · rfl
  · simp [search_documents, buildHitDoc, vlookup, validateSearchResult, isRequiredStr]

/-- C9: every `size` outside [1,100] supplied to `/search` is rejected at
the FastAPI validation boundary with a 422, before any backend call is
issued (the backend-called flag stays `false`), for every backend state. -/
theorem search_size_rejected_before_backend :
    ∀ (q : String) (size : ℤ) (suggest esConfigured : Bool)
      (outcome : BackendOutcome EsSearchResponse),
      (size < 1 ∨ 100 < size) →
      searchRoute q size suggest esConfigured outcome = (false, .rejected422) := by
  intro q size suggest esC outcome hsz
  have hinvalid : ¬ (searchParamsValid q size = true) := by
    simp only [searchParamsValid, Bool.and_eq_true, decide_eq_true_eq]
    omega
  unfold searchRoute
  rw [if_neg hinvalid]

/-- C9 witness: `size = 0` with a non-empty query is rejected with no
backend call even when the backend would have raised. -/
theorem search_size_rejected_before_backend_witness :
    searchRoute "red shirt" 0 true true .raises = (false, .rejected422) :=
  search_size_rejected_before_backend "red shirt" 0 true true .raises (Or.inl (by norm_num))

/-- C10: `/search_by_prompt_or_query` performs no input validation — its
declared parameters accept every string (including the empty string) and
every integer, and given a configured, reachable backend the handler always
proceeds to issue backend search calls — unlike `/search`, whose declared
constraints accept exactly the requests with a non-empty query and a size
in [1,100]. -/
theorem pq_accepts_all_params_unlike_search :
    ∀ (q : String) (size : ℤ) (outcome : BackendOutcome PqBackendData),
      pqParamsValid q size = true ∧
      (search_by_prompt_or_query q size true true outcome).1 = true ∧
      (searchParamsValid q size = true ↔ (1 ≤ q.length ∧ 1 ≤ size ∧ size ≤ 100)) := by
  intro q size outcome
  refine ⟨rfl, ?_, ?_⟩
  · unfold search_by_prompt_or_query
    rw [if_neg (by simp)]
    cases outcome <;> rfl
  · simp [searchParamsValid]

/-- C10 witness: the empty query with `size = 0` and a query with
`size = 101` both reach the backend on `/search_by_prompt_or_query`, while
`/search`'s declared validation rejects both. -/
theorem pq_accepts_all_params_unlike_search_witness :
    pqParamsValid "" 0 = true ∧
    (search_by_prompt_or_query "" 0 true true .raises).1 = true ∧
    searchParamsValid "" 0 = false ∧
    pqParamsValid "x" 101 = true ∧
    (search_by_prompt_or_query "x" 101 true true .raises).1 = true ∧
    searchParamsValid "x" 101 = false := by
  have h1 := pq_accepts_all_params_unlike_search "" 0 .raises
  have h2 := pq_accepts_all_params_unlike_search "x" 101 .raises
  refine ⟨h1.1, h1.2.1, ?_, h2.1, h2.2.1, ?_⟩
  · rw [Bool.eq_false_iff]
    intro hc
    have hr := (h1.2.2.mp hc).2.1
    omega
  · rw [Bool.eq_false_iff]
    intro hc
    have hr := (h2.2.2.mp hc).2.2
    omega
